import Mathlib

/-!
Shallow embedding of the Rapidrole semantic-compatibility core:
the semantic matcher (src/embeddings/matcher.py, class SemanticMatcher)
and the embedding service (src/backend/embeddings/service.py, class
EmbeddingService).  Floating-point arithmetic is modelled over the reals;
Python strings are modelled as lists of characters.
-/

namespace Rapidrole

/-- Embedding vectors (`list[float]` in the source) as lists of reals. -/
abbrev Vec := List ℝ

/-- `np.dot` on two 1-d arrays: sum of pairwise products.  In numpy a
length mismatch raises; the callers in the source either guard the call
or catch the exception, so here the function totalises by recursion and
the exception path is modelled at each call site. -/
def dotList : Vec → Vec → ℝ
  | a :: as, b :: bs => a * b + dotList as bs
  | _, _ => 0

/-- `np.linalg.norm`: the Euclidean norm, square root of the sum of squares. -/
noncomputable def normList (v : Vec) : ℝ :=
  Real.sqrt (dotList v v)

/-- `SemanticMatcher._cosine_similarity` (matcher.py:277-329).
Branches, in the source's order:
* either input list empty (`if not vec1 or not vec2`) → `0.0`;
* `np.dot` raises on a length mismatch, the blanket `except Exception`
  catches it and returns `0.0`;
* zero `norm_product` → `0.0`;
* otherwise `max(0.0, min(1.0, dot / norm_product))`. -/
noncomputable def cosine_similarity (vec1 vec2 : Vec) : ℝ :=
  if vec1 = [] ∨ vec2 = [] then 0
  else if vec1.length ≠ vec2.length then 0
  else
    let dot_product := dotList vec1 vec2
    let norm_product := normList vec1 * normList vec2
    if norm_product = 0 then 0
    else max 0 (min 1 (dot_product / norm_product))

/-- Matcher weight `self.weights["skills"]` (matcher.py:40). -/
def weight_skills : ℝ := 0.4

/-- Matcher weight `self.weights["experience"]` (matcher.py:41). -/
def weight_experience : ℝ := 0.35

/-- Matcher weight `self.weights["goals"]` (matcher.py:42). -/
def weight_goals : ℝ := 0.25

/-- The two embeddings carried by a `JobPosting` row. -/
structure JobEmbeddings where
  description_embedding : Vec
  requirements_embedding : Vec

/-- The three embeddings carried by a `UserProfile` row. -/
structure ProfileEmbeddings where
  skills_embedding : Vec
  experience_embedding : Vec
  goals_embedding : Vec

/-- The dict returned by `calculate_compatibility`. -/
structure CompatibilityResult where
  overall_score : ℝ
  skills_match : ℝ
  experience_match : ℝ
  goals_alignment : ℝ

/-- `SemanticMatcher.calculate_compatibility` (matcher.py:178-256):
three pairwise cosine similarities with the fixed pairing, then the
weighted sum. -/
noncomputable def calculate_compatibility (job : JobEmbeddings)
    (profile : ProfileEmbeddings) : CompatibilityResult :=
  let skills_sim := cosine_similarity job.description_embedding profile.skills_embedding
  let experience_sim := cosine_similarity job.requirements_embedding profile.experience_embedding
  let goals_sim := cosine_similarity job.description_embedding profile.goals_embedding
  { overall_score := skills_sim * weight_skills + experience_sim * weight_experience
      + goals_sim * weight_goals
    skills_match := skills_sim
    experience_match := experience_sim
    goals_alignment := goals_sim }

/-- The `cosine_distance` operator of the datastore (pgvector), as used in
the SQL pushdown inside `find_compatible_jobs` (matcher.py:104, 113, 122):
one minus the raw, unclamped cosine similarity `dot / (norm * norm)`.
Real division by zero is zero in Lean, standing in for the undefined
distance on zero-norm vectors; claims touching that case restrict to
defined inputs. -/
noncomputable def cosine_distance (a b : Vec) : ℝ :=
  1 - dotList a b / (normList a * normList b)

/-- The preliminary `compatibility_score` computed inside the datastore
query (matcher.py:97-132): the weighted sum of `1 - cosine_distance`
over the same fixed pairing as `calculate_compatibility`, with no
per-component clamping. -/
noncomputable def pushdown_score (job : JobEmbeddings) (profile : ProfileEmbeddings) : ℝ :=
  (1 - cosine_distance job.description_embedding profile.skills_embedding) * weight_skills
    + (1 - cosine_distance job.requirements_embedding profile.experience_embedding)
      * weight_experience
    + (1 - cosine_distance job.description_embedding profile.goals_embedding) * weight_goals

/-- One row yielded by the datastore query: a job plus its preliminary
`compatibility_score` (matcher.py:134-135, 152). -/
structure MatchRow where
  job : JobEmbeddings
  score : ℝ

/-- One element of the list returned by `find_compatible_jobs`: the dict
`{job, compatibility_score, breakdown}` (matcher.py:155-161). -/
structure MatchResult where
  job : JobEmbeddings
  compatibility_score : ℝ
  breakdown : CompatibilityResult

/-- The engine part of `SemanticMatcher.find_compatible_jobs`
(matcher.py:150-176), after the datastore query returns its rows
(the query orders them descending by the preliminary score and caps them
at `limit`; that contract appears as hypotheses on the theorems).  Each
row with `score >= min_score` is kept, in order, paired with the
breakdown recomputed by `calculate_compatibility`; the method performs
no validation of `limit` or `min_score`. -/
noncomputable def find_compatible_jobs (rows : List MatchRow)
    (profile : ProfileEmbeddings) (min_score : ℝ) : List MatchResult :=
  (rows.filter (fun r => decide (min_score ≤ r.score))).map
    (fun r =>
      { job := r.job
        compatibility_score := r.score
        breakdown := calculate_compatibility r.job profile })

/-- Python strings as lists of characters. -/
abbrev PyStr := List Char

/-- The whitespace set of Python's `str.strip()` restricted to ASCII:
space, `\t`, `\n`, `\r`, `\x0b`, `\x0c`. -/
def isPySpace (c : Char) : Bool :=
  c == ' ' || c == '\t' || c == '\n' || c == '\r' || c == '\x0b' || c == '\x0c'

/-- Python's `str.strip()`: drop whitespace from both ends. -/
def pyStrip (s : PyStr) : PyStr :=
  ((s.dropWhile isPySpace).reverse.dropWhile isPySpace).reverse

/-- `EmbeddingService.dimension` (service.py:32). -/
def dimension : Nat := 768

/-- The all-zero vector `[0.0] * self.dimension` (service.py:52, 123). -/
def zero_vector : Vec := List.replicate dimension 0

/-- `EmbeddingService.embed_text` (service.py:40-95), the provider call
abstracted as an oracle.  Returns the embedding together with the number
of provider calls made.  The source's guard `not text or not text.strip()`
holds exactly when the stripped text is empty (an empty string strips to
empty), in which case the zero vector is returned with no provider call;
otherwise the stripped text truncated to 8000 characters is sent to the
provider once and its vector is returned unchanged. -/
def embed_text (provider : PyStr → Vec) (text : PyStr) : Vec × Nat :=
  if pyStrip text = [] then (zero_vector, 0)
  else (provider ((pyStrip text).take 8000), 1)

/-- The comprehension `[t.strip()[:8000] for t in texts if t and t.strip()]`
(service.py:119): the condition `t and t.strip()` is truthy exactly when
the stripped text is non-empty. -/
def processed_texts (texts : List PyStr) : List PyStr :=
  (texts.filter (fun t => !(pyStrip t).isEmpty)).map (fun t => (pyStrip t).take 8000)

/-- `EmbeddingService.embed_batch` (service.py:102-166), the batched
provider call abstracted as an oracle.  Returns the result together with
the list of batches sent to the provider: an empty input list yields `[]`
with no call; if every text strips to empty, a same-length list of zero
vectors is returned with no call; otherwise the processed texts are sent
as one batch and the provider's vectors are returned as-is. -/
def embed_batch (provider : List PyStr → List Vec) (texts : List PyStr) :
    List Vec × List (List PyStr) :=
  if texts = [] then ([], [])
  else if processed_texts texts = [] then
    (List.replicate texts.length zero_vector, [])
  else (provider (processed_texts texts), [processed_texts texts])

/-- Concrete job with description and requirements embeddings `[1]`. -/
noncomputable def jobA : JobEmbeddings :=
  { description_embedding := [1], requirements_embedding := [1] }

/-- Concrete profile with all three embeddings `[1]`. -/
noncomputable def profileA : ProfileEmbeddings :=
  { skills_embedding := [1], experience_embedding := [1], goals_embedding := [1] }

/-- Concrete profile whose skills embedding `[-1]` is anti-correlated with
`jobA`'s description embedding `[1]`. -/
noncomputable def profileB : ProfileEmbeddings :=
  { skills_embedding := [-1], experience_embedding := [1], goals_embedding := [1] }

/-- Basic dot-product fact: `dotList [] l = 0` (both arms of the match). -/
theorem dotList_nil_left (l : Vec) : dotList [] l = 0 := by
  cases l <;> rfl

/-- Basic dot-product fact: `dotList l [] = 0`. -/
theorem dotList_nil_right (l : Vec) : dotList l [] = 0 := by
  cases l <;> rfl

/-- The dot product is commutative. -/
theorem dotList_comm (a b : Vec) : dotList a b = dotList b a := by
  induction a generalizing b with
  | nil => rw [dotList_nil_left, dotList_nil_right]
  | cons x xs ih =>
    cases b with
    | nil => rw [dotList_nil_left, dotList_nil_right]
    | cons y ys => simp only [dotList, ih, mul_comm]

/-- Every branch of `cosine_similarity` yields a value in `[0, 1]`. -/
theorem cosine_similarity_mem_unit (a b : Vec) :
    0 ≤ cosine_similarity a b ∧ cosine_similarity a b ≤ 1 := by
  unfold cosine_similarity
  dsimp only
  split_ifs with h1 h2 h3
  · exact ⟨le_refl 0, zero_le_one⟩
  · exact ⟨le_refl 0, zero_le_one⟩
  · exact ⟨le_refl 0, zero_le_one⟩
  · constructor
    · exact le_max_left 0 _
    · exact max_le (by norm_num) (min_le_left 1 _)

/-- C3: the two defined edge branches return exactly `0`. -/
theorem cosine_similarity_edge_zero (a b : Vec)
    (h : a = [] ∨ b = [] ∨ normList a = 0 ∨ normList b = 0) :
    cosine_similarity a b = 0 := by
  unfold cosine_similarity
  dsimp only
  rcases h with h | h | h | h
  · simp [h]
  · simp [h]
  · split_ifs with h1 h2 h3
    · rfl
    · rfl
    · rfl
    · exact absurd (by rw [h, zero_mul]) h3
  · split_ifs with h1 h2 h3
    · rfl
    · rfl
    · rfl
    · exact absurd (by rw [h, mul_zero]) h3

/-- C3: cosine similarity is total on the edge cases: whenever either
vector is empty or either vector's norm is exactly zero, the similarity
is defined as `0.0`; no branch of the embedded function is partial, so no
division by zero occurs and no exception escapes. -/
theorem C3_cosine_similarity_edge_cases (a b : Vec)
    (h : a = [] ∨ b = [] ∨ normList a = 0 ∨ normList b = 0) :
    cosine_similarity a b = 0 :=
  cosine_similarity_edge_zero a b h

/-- Witness for C3 at the zero vector `[0, 0]` against `[1, 2]`. -/
theorem C3_cosine_similarity_edge_cases_witness :
    normList [(0 : ℝ), 0] = 0 ∧ cosine_similarity [(0 : ℝ), 0] [(1 : ℝ), 2] = 0 := by
  have hnorm : normList [(0 : ℝ), 0] = 0 := by simp [normList, dotList]
  exact ⟨hnorm, C3_cosine_similarity_edge_cases _ _ (Or.inr (Or.inr (Or.inl hnorm)))⟩

/-- C4: `calculate_compatibility` returns an overall score equal to
`skills_match * 0.40 + experience_match * 0.35 + goals_alignment * 0.25`,
and all four returned values lie in `[0.0, 1.0]`. -/
theorem C4_score_formula_and_bounds (job : JobEmbeddings) (profile : ProfileEmbeddings) :
    (calculate_compatibility job profile).overall_score
        = (calculate_compatibility job profile).skills_match * 0.40
          + (calculate_compatibility job profile).experience_match * 0.35
          + (calculate_compatibility job profile).goals_alignment * 0.25
    ∧ (0 ≤ (calculate_compatibility job profile).overall_score
        ∧ (calculate_compatibility job profile).overall_score ≤ 1)
    ∧ (0 ≤ (calculate_compatibility job profile).skills_match
        ∧ (calculate_compatibility job profile).skills_match ≤ 1)
    ∧ (0 ≤ (calculate_compatibility job profile).experience_match
        ∧ (calculate_compatibility job profile).experience_match ≤ 1)
    ∧ (0 ≤ (calculate_compatibility job profile).goals_alignment
        ∧ (calculate_compatibility job profile).goals_alignment ≤ 1) := by
  obtain ⟨hs0, hs1⟩ :=
    cosine_similarity_mem_unit job.description_embedding profile.skills_embedding
  obtain ⟨he0, he1⟩ :=
    cosine_similarity_mem_unit job.requirements_embedding profile.experience_embedding
  obtain ⟨hg0, hg1⟩ :=
    cosine_similarity_mem_unit job.description_embedding profile.goals_embedding
  unfold calculate_compatibility weight_skills weight_experience weight_goals
  dsimp only
  refine ⟨by norm_num, ⟨?_, ?_⟩, ⟨hs0, hs1⟩, ⟨he0, he1⟩, ⟨hg0, hg1⟩⟩
  · nlinarith
  · nlinarith

/-- C5: the three component scores use the fixed asymmetric pairing —
skills from (job.description, profile.skills), experience from
(job.requirements, profile.experience), goals from
(job.description, profile.goals). -/
theorem C5_fixed_pairing (job : JobEmbeddings) (profile : ProfileEmbeddings) :
    (calculate_compatibility job profile).skills_match
        = cosine_similarity job.description_embedding profile.skills_embedding
    ∧ (calculate_compatibility job profile).experience_match
        = cosine_similarity job.requirements_embedding profile.experience_embedding
    ∧ (calculate_compatibility job profile).goals_alignment
        = cosine_similarity job.description_embedding profile.goals_embedding :=
  ⟨rfl, rfl, rfl⟩

/-- C8 counterexample: a mismatched-dimension pair does not fail loudly;
the `ValueError` from `np.dot` is swallowed by the blanket
`except Exception` handler and the default similarity `0.0` is returned. -/
theorem C8_counterexample_mismatched_dims :
    cosine_similarity [(1 : ℝ)] [(1 : ℝ), 0] = 0 := by
  unfold cosine_similarity
  dsimp only
  rw [if_neg (by simp), if_pos (by simp)]

/-- C8 amended: for every pair of embeddings of mismatched dimension,
`_cosine_similarity` catches the numpy error, logs it, and returns the
default similarity `0.0` instead of raising a contract violation. -/
theorem C8_mismatched_dims_return_default (a b : Vec)
    (h : a.length ≠ b.length) :
    cosine_similarity a b = 0 := by
  unfold cosine_similarity
  dsimp only
  by_cases h1 : a = [] ∨ b = []
  · rw [if_pos h1]
  · rw [if_neg h1, if_pos h]

/-- Witness for the amended C8 at the concrete pair `[1]`, `[1, 0]`. -/
theorem C8_mismatched_dims_return_default_witness :
    ([(1 : ℝ)].length ≠ [(1 : ℝ), 0].length)
    ∧ cosine_similarity [(1 : ℝ)] [(1 : ℝ), 0] = 0 :=
  ⟨by simp, C8_mismatched_dims_return_default _ _ (by simp)⟩

/-- C10: the clamped cosine similarity is commutative, in every branch:
the empty-vector test, the caught dimension mismatch, the zero-norm test
and the clamped quotient are all symmetric in the two arguments. -/
theorem C10_cosine_similarity_comm (a b : Vec) :
    cosine_similarity a b = cosine_similarity b a := by
  unfold cosine_similarity
  dsimp only
  rw [dotList_comm a b, mul_comm (normList a) (normList b)]
  by_cases h1 : a = [] ∨ b = []
  · rw [if_pos h1, if_pos (or_comm.mp h1)]
  · rw [if_neg h1, if_neg (fun hc => h1 (or_comm.mp hc))]
    by_cases h2 : a.length = b.length
    · rw [if_neg (fun hc : a.length ≠ b.length => hc h2),
        if_neg (fun hc : b.length ≠ a.length => hc h2.symm)]
    · rw [if_pos h2, if_pos (fun hc : b.length = a.length => h2 hc.symm)]

/-- Cosine similarity of `[1]` with itself is `1`. -/
theorem cosine_similarity_one_one : cosine_similarity [(1 : ℝ)] [(1 : ℝ)] = 1 := by
  unfold cosine_similarity normList
  norm_num [dotList, Real.sqrt_one]

/-- Cosine similarity of `[1]` and `[-1]` clamps the raw value `-1` to `0`. -/
theorem cosine_similarity_one_negone : cosine_similarity [(1 : ℝ)] [(-1 : ℝ)] = 0 := by
  unfold cosine_similarity normList
  norm_num [dotList, Real.sqrt_one]

/-- On dimension-matching non-empty vectors whose raw cosine lies in
`[0, 1]`, the clamped similarity equals the raw quotient (also when the
norm product is zero, where both sides are `0`). -/
theorem cosine_similarity_eq_raw (a b : Vec) (ha : a ≠ []) (hb : b ≠ [])
    (hlen : a.length = b.length)
    (h0 : 0 ≤ dotList a b / (normList a * normList b))
    (h1 : dotList a b / (normList a * normList b) ≤ 1) :
    cosine_similarity a b = dotList a b / (normList a * normList b) := by
  unfold cosine_similarity
  dsimp only
  rw [if_neg (fun hc => hc.elim ha hb), if_neg (fun hc => hc hlen)]
  by_cases hz : normList a * normList b = 0
  · rw [if_pos hz, hz, div_zero]
  · rw [if_neg hz, min_eq_right h1, max_eq_right h0]

/-- `1 - cosine_distance` is the raw cosine quotient. -/
theorem one_sub_cosine_distance (a b : Vec) :
    1 - cosine_distance a b = dotList a b / (normList a * normList b) := by
  unfold cosine_distance
  ring

/-- `calculate_compatibility` on `jobA` and `profileA` gives all ones. -/
theorem calculate_compatibility_jobA_profileA :
    calculate_compatibility jobA profileA =
      { overall_score := 1, skills_match := 1, experience_match := 1, goals_alignment := 1 } := by
  unfold calculate_compatibility jobA profileA
  dsimp only
  rw [cosine_similarity_one_one]
  unfold weight_skills weight_experience weight_goals
  norm_num

/-- C2: for every input string that is empty or whitespace-only,
`embed_text` returns the all-zero vector of the fixed dimension with
zero provider calls. -/
theorem C2_embed_text_blank_returns_zero_vector (provider : PyStr → Vec)
    (text : PyStr) (h : ∀ c ∈ text, isPySpace c = true) :
    embed_text provider text = (zero_vector, 0) := by
  have hdrop : text.dropWhile isPySpace = [] := by
    induction text with
    | nil => rfl
    | cons c cs ih =>
      rw [List.dropWhile_cons, if_pos (h c (List.mem_cons_self c cs))]
      exact ih fun x hx => h x (List.mem_cons_of_mem c hx)
  have hstrip : pyStrip text = [] := by
    unfold pyStrip
    rw [hdrop]
    rfl
  unfold embed_text
  rw [if_pos hstrip]

/-- Witness for C2 at the whitespace-only string `"  \t"`. -/
theorem C2_embed_text_blank_returns_zero_vector_witness :
    (∀ c ∈ ([' ', ' ', '\t'] : PyStr), isPySpace c = true)
    ∧ embed_text (fun _ => []) [' ', ' ', '\t'] = (zero_vector, 0) :=
  ⟨by decide, C2_embed_text_blank_returns_zero_vector _ _ (by decide)⟩

/-- C1 (evaluation at the failing input): `embed_batch` on
`["", "hello", ""]` with a provider answering one vector per batch item
returns a one-element list holding only the vector for `"hello"` — the
empty positions are dropped, not replaced by zero vectors — while the
provider is indeed called with the single batch `["hello"]`.  The output
length `1` differs from the input length `3`, refuting the claimed
`[zero_vector, provider_vector, zero_vector]` shape. -/
theorem C1_embed_batch_drops_blank_positions :
    embed_batch (fun batch => batch.map fun _ => List.replicate dimension 1)
        [[], ['h', 'e', 'l', 'l', 'o'], []]
      = ([List.replicate dimension 1], [[['h', 'e', 'l', 'l', 'o']]])
    ∧ (embed_batch (fun batch => batch.map fun _ => List.replicate dimension 1)
        [[], ['h', 'e', 'l', 'l', 'o'], []]).1.length = 1 :=
  ⟨rfl, rfl⟩

/-- C6: given rows obeying the datastore contract (ordered descending by
preliminary score, at most `limit` of them), `find_compatible_jobs`
returns at most `limit` items, sorted descending by their score, each
with score at least `min_score`, and in the supplier's original relative
order (the projection of the output is a sublist of the rows). -/
theorem C6_find_compatible_jobs_ordering (rows : List MatchRow)
    (profile : ProfileEmbeddings) (limit : ℕ) (min_score : ℝ)
    (hsorted : rows.Sorted fun r s => s.score ≤ r.score)
    (hlen : rows.length ≤ limit) :
    (find_compatible_jobs rows profile min_score).length ≤ limit
    ∧ (find_compatible_jobs rows profile min_score).Sorted
        (fun x y => y.compatibility_score ≤ x.compatibility_score)
    ∧ (∀ it ∈ find_compatible_jobs rows profile min_score,
        min_score ≤ it.compatibility_score)
    ∧ ((find_compatible_jobs rows profile min_score).map
          fun it => (it.job, it.compatibility_score)).Sublist
        (rows.map fun r => (r.job, r.score)) := by
  unfold find_compatible_jobs
  refine ⟨?_, ?_, ?_, ?_⟩
  · rw [List.length_map]
    exact le_trans (List.length_filter_le _ rows) hlen
  · exact (hsorted.filter _).map _ fun a b hab => hab
  · intro it hit
    obtain ⟨r, hr, hfr⟩ := List.mem_map.mp hit
    obtain ⟨_, hkeep⟩ := List.mem_filter.mp hr
    have : min_score ≤ r.score := of_decide_eq_true hkeep
    rw [← hfr]
    exact this
  · rw [List.map_map]
    exact (List.filter_sublist rows).map fun r => (r.job, r.score)

/-- Witness for C6 at the supplier rows scored `0.9, 0.72, 0.5` with
`min_score = 0.7` and `limit = 3` (Scenario D of the spec). -/
theorem C6_find_compatible_jobs_ordering_witness :
    (([⟨jobA, 0.9⟩, ⟨jobA, 0.72⟩, ⟨jobA, 0.5⟩] : List MatchRow).Sorted
        fun r s => s.score ≤ r.score)
    ∧ ([⟨jobA, 0.9⟩, ⟨jobA, 0.72⟩, ⟨jobA, 0.5⟩] : List MatchRow).length ≤ 3
    ∧ ((find_compatible_jobs [⟨jobA, 0.9⟩, ⟨jobA, 0.72⟩, ⟨jobA, 0.5⟩] profileA 0.7).length ≤ 3
      ∧ (find_compatible_jobs [⟨jobA, 0.9⟩, ⟨jobA, 0.72⟩, ⟨jobA, 0.5⟩] profileA 0.7).Sorted
          (fun x y => y.compatibility_score ≤ x.compatibility_score)
      ∧ (∀ it ∈ find_compatible_jobs [⟨jobA, 0.9⟩, ⟨jobA, 0.72⟩, ⟨jobA, 0.5⟩] profileA 0.7,
          (0.7 : ℝ) ≤ it.compatibility_score)
      ∧ ((find_compatible_jobs [⟨jobA, 0.9⟩, ⟨jobA, 0.72⟩, ⟨jobA, 0.5⟩] profileA 0.7).map
            fun it => (it.job, it.compatibility_score)).Sublist
          (([⟨jobA, 0.9⟩, ⟨jobA, 0.72⟩, ⟨jobA, 0.5⟩] : List MatchRow).map
            fun r => (r.job, r.score))) := by
  have hsorted : (([⟨jobA, 0.9⟩, ⟨jobA, 0.72⟩, ⟨jobA, 0.5⟩] : List MatchRow).Sorted
      fun r s => s.score ≤ r.score) := by
    refine List.sorted_cons.mpr ⟨?_, List.sorted_cons.mpr ⟨?_, List.sorted_singleton _⟩⟩
    · intro s hs
      rcases List.mem_cons.mp hs with rfl | hs2
      · norm_num
      · rcases List.mem_singleton.mp hs2 with rfl
        norm_num
    · intro s hs
      rcases List.mem_singleton.mp hs with rfl
      norm_num
  have hlen : ([⟨jobA, 0.9⟩, ⟨jobA, 0.72⟩, ⟨jobA, 0.5⟩] : List MatchRow).length ≤ 3 := by
    simp
  exact ⟨hsorted, hlen, C6_find_compatible_jobs_ordering _ profileA 3 0.7 hsorted hlen⟩

/-- C7 counterexample: an out-of-domain `min_score = -1` is not rejected —
`find_compatible_jobs` proceeds, queries the supplier, performs the
scoring work and returns a normal result with the breakdown computed. -/
theorem C7_counterexample_out_of_domain_accepted :
    find_compatible_jobs [⟨jobA, 0.9⟩] profileA (-1)
      = [⟨jobA, 0.9,
          { overall_score := 1, skills_match := 1, experience_match := 1,
            goals_alignment := 1 }⟩] := by
  unfold find_compatible_jobs
  rw [List.filter_cons]
  rw [if_pos (decide_eq_true (by norm_num : (-1 : ℝ) ≤ 0.9))]
  rw [List.filter_nil, List.map_cons, List.map_nil]
  rw [calculate_compatibility_jobA_profileA]

/-- C7 amended: `find_compatible_jobs` performs no domain validation;
an out-of-domain `min_score` is applied directly as the filter threshold,
so a `min_score` above `1` silently yields the empty list instead of a
rejection. -/
theorem C7_no_validation_silent_empty (rows : List MatchRow)
    (profile : ProfileEmbeddings) (min_score : ℝ)
    (h : 1 < min_score) (hrows : ∀ r ∈ rows, r.score ≤ 1) :
    find_compatible_jobs rows profile min_score = [] := by
  unfold find_compatible_jobs
  have hfilter : rows.filter (fun r => decide (min_score ≤ r.score)) = [] := by
    rw [List.filter_eq_nil_iff]
    intro r hr
    simp only [decide_eq_true_eq]
    exact not_le.mpr (lt_of_le_of_lt (hrows r hr) h)
  rw [hfilter, List.map_nil]

/-- Witness for the amended C7 with `min_score = 70` (the spec's own
example of a caller bug about score units) against a row scored `0.9`. -/
theorem C7_no_validation_silent_empty_witness :
    (1 : ℝ) < 70
    ∧ (∀ r ∈ ([⟨jobA, 0.9⟩] : List MatchRow), r.score ≤ 1)
    ∧ find_compatible_jobs [⟨jobA, 0.9⟩] profileA 70 = [] := by
  have h1 : (1 : ℝ) < 70 := by norm_num
  have h2 : ∀ r ∈ ([⟨jobA, 0.9⟩] : List MatchRow), r.score ≤ 1 := by
    intro r hr
    rcases List.mem_singleton.mp hr with h
    subst h
    norm_num
  exact ⟨h1, h2, C7_no_validation_silent_empty _ profileA 70 h1 h2⟩

/-- C9 counterexample: on `jobA` (both embeddings `[1]`) and `profileB`
(skills `[-1]`, others `[1]`), the datastore's preliminary ranking score
is `0.2` — the raw skills cosine `-1` enters the weighted sum unclamped —
while the recomputed breakdown's `overall_score` is `0.6`, because
`_cosine_similarity` clamps the skills component to `0`.  The ranking
score and the displayed breakdown therefore drift apart. -/
theorem C9_counterexample_ranking_breakdown_drift :
    pushdown_score jobA profileB = 0.2
    ∧ (calculate_compatibility jobA profileB).overall_score = 0.6
    ∧ pushdown_score jobA profileB
        ≠ (calculate_compatibility jobA profileB).overall_score := by
  have hpush : pushdown_score jobA profileB = 0.2 := by
    unfold pushdown_score cosine_distance normList jobA profileB
    unfold weight_skills weight_experience weight_goals
    norm_num [dotList, Real.sqrt_one]
  have hover : (calculate_compatibility jobA profileB).overall_score = 0.6 := by
    unfold calculate_compatibility jobA profileB
    dsimp only
    rw [cosine_similarity_one_one, cosine_similarity_one_negone]
    unfold weight_skills weight_experience weight_goals
    norm_num
  refine ⟨hpush, hover, ?_⟩
  rw [hpush, hover]
  norm_num

/-- C9 amended: the pushdown ranking formula and the recomputed breakdown
agree exactly on inputs where every raw component cosine lies in `[0, 1]`
(in particular whenever no pair is anti-correlated); with dimension-true,
non-empty embeddings the per-component clamp is then the identity, so
`pushdown_score = overall_score`.  Outside that region the unclamped
pushdown and the clamped breakdown drift apart. -/
theorem C9_pushdown_matches_breakdown_on_nonneg (job : JobEmbeddings)
    (profile : ProfileEmbeddings)
    (hd : job.description_embedding ≠ [])
    (hr : job.requirements_embedding ≠ [])
    (hs : profile.skills_embedding ≠ [])
    (he : profile.experience_embedding ≠ [])
    (hg : profile.goals_embedding ≠ [])
    (hlen1 : job.description_embedding.length = profile.skills_embedding.length)
    (hlen2 : job.requirements_embedding.length = profile.experience_embedding.length)
    (hlen3 : job.description_embedding.length = profile.goals_embedding.length)
    (h1a : 0 ≤ 1 - cosine_distance job.description_embedding profile.skills_embedding)
    (h1b : 1 - cosine_distance job.description_embedding profile.skills_embedding ≤ 1)
    (h2a : 0 ≤ 1 - cosine_distance job.requirements_embedding profile.experience_embedding)
    (h2b : 1 - cosine_distance job.requirements_embedding profile.experience_embedding ≤ 1)
    (h3a : 0 ≤ 1 - cosine_distance job.description_embedding profile.goals_embedding)
    (h3b : 1 - cosine_distance job.description_embedding profile.goals_embedding ≤ 1) :
    pushdown_score job profile = (calculate_compatibility job profile).overall_score := by
  rw [one_sub_cosine_distance] at h1a h1b h2a h2b h3a h3b
  have e1 := cosine_similarity_eq_raw _ _ hd hs hlen1 h1a h1b
  have e2 := cosine_similarity_eq_raw _ _ hr he hlen2 h2a h2b
  have e3 := cosine_similarity_eq_raw _ _ hd hg hlen3 h3a h3b
  unfold pushdown_score calculate_compatibility
  dsimp only
  rw [one_sub_cosine_distance, one_sub_cosine_distance, one_sub_cosine_distance,
    e1, e2, e3]

/-- Witness for the amended C9 at `jobA` and `profileA`, where every raw
component cosine is `1`. -/
theorem C9_pushdown_matches_breakdown_on_nonneg_witness :
    (0 ≤ 1 - cosine_distance jobA.description_embedding profileA.skills_embedding
      ∧ 1 - cosine_distance jobA.description_embedding profileA.skills_embedding ≤ 1)
    ∧ pushdown_score jobA profileA = (calculate_compatibility jobA profileA).overall_score := by
  have hdist : cosine_distance [(1 : ℝ)] [(1 : ℝ)] = 0 := by
    unfold cosine_distance normList
    norm_num [dotList, Real.sqrt_one]
  have hb : 0 ≤ 1 - cosine_distance jobA.description_embedding profileA.skills_embedding
      ∧ 1 - cosine_distance jobA.description_embedding profileA.skills_embedding ≤ 1 := by
    unfold jobA profileA
    rw [hdist]
    norm_num
  refine ⟨hb, ?_⟩
  exact C9_pushdown_matches_breakdown_on_nonneg jobA profileA
    (by simp [jobA]) (by simp [jobA]) (by simp [profileA]) (by simp [profileA])
    (by simp [profileA]) (by simp [jobA, profileA]) (by simp [jobA, profileA])
    (by simp [jobA, profileA])
    (by unfold jobA profileA; rw [hdist]; norm_num)
    (by unfold jobA profileA; rw [hdist]; norm_num)
    (by unfold jobA profileA; rw [hdist]; norm_num)
    (by unfold jobA profileA; rw [hdist]; norm_num)
    (by unfold jobA profileA; rw [hdist]; norm_num)
    (by unfold jobA profileA; rw [hdist]; norm_num)

end Rapidrole
